import Mathlib

/-! GASModelFactory: name-to-constructor dispatch

Shallow embedding of `src/GASModelFactory.cpp`.  The file defines the three
builders `BuildGASModel`, `BuildGASModelWPar` and `BuildGASModelWParWPrior`.
Each one compares the model name with two string literals, calls a
constructor of the matching class through `new`, and otherwise calls
`Rcpp::stop` followed by `return NULL`.

The classes `BetaGenTEGARCH` and `BetaTEGARCH`, and the types
`NumericVector` and `PriorStack`, are only included by the file, so the
builders take them as parameters: `NV` and `PS` are the argument types,
`G` and `B` the object types of the two classes, `E` the type of whatever
a constructor may throw.
-/

namespace GASModelFactory

/-- What leaves a builder other than by `return`: the exception raised by
`Rcpp::stop(msg)`, or an exception thrown from inside a constructor. -/
inductive Exception (E : Type) where
  | stop (msg : String)
  | ctor (e : E)
deriving DecidableEq, Repr

/-- A value of the C++ type `GASModel*`: the static type of every builder. -/
inductive Ptr (α : Type) where
  | NULL
  | obj (a : α)
deriving DecidableEq, Repr

/-- The dynamic type of an object behind a `GASModel*`: one of the two
subclasses that the file instantiates. -/
inductive GASModel (G B : Type) where
  | BetaGenTEGARCH (o : G)
  | BetaTEGARCH (o : B)
deriving DecidableEq, Repr

/-- The six constructors that the file calls, three per class.  A
constructor either yields an object or throws. -/
structure Ctors (NV PS E G B : Type) where
  BetaGenTEGARCH0 : Except E G
  BetaGenTEGARCH1 : NV → Except E G
  BetaGenTEGARCH2 : NV → PS → Except E G
  BetaTEGARCH0 : Except E B
  BetaTEGARCH1 : NV → Except E B
  BetaTEGARCH2 : NV → PS → Except E B

/-- `Rcpp::stop(msg)`: always raises, never returns to the caller. -/
def stop {E : Type} (msg : String) : Except (Exception E) Unit :=
  Except.error (Exception.stop msg)

/-- The expression `new T(args)` converted to `GASModel*`: the constructor
runs, an exception of it propagates, otherwise the result is a pointer to
the new object (a plain `new` never yields a null pointer). -/
def newObj {E G B α : Type} (built : Except E α) (up : α → GASModel G B) :
    Except (Exception E) (Ptr (GASModel G B)) :=
  match built with
  | Except.ok o => Except.ok (Ptr.obj (up o))
  | Except.error e => Except.error (Exception.ctor e)

section Builders

variable {NV PS E G B : Type}

/-- `GASModelFactory::BuildGASModel(String modelStr)`, lines 10-20. -/
def BuildGASModel (c : Ctors NV PS E G B) (modelStr : String) :
    Except (Exception E) (Ptr (GASModel G B)) :=
  if modelStr == "BetaGenTEGARCH" then
    newObj c.BetaGenTEGARCH0 GASModel.BetaGenTEGARCH
  else if modelStr == "BetaTEGARCH" then
    newObj c.BetaTEGARCH0 GASModel.BetaTEGARCH
  else do
    stop "Specify an implemented model, see doc for available models."
    return Ptr.NULL

/-- `GASModelFactory::BuildGASModelWPar(String modelStr, NumericVector
initParams)`, lines 22-33. -/
def BuildGASModelWPar (c : Ctors NV PS E G B) (modelStr : String) (initParams : NV) :
    Except (Exception E) (Ptr (GASModel G B)) :=
  if modelStr == "BetaGenTEGARCH" then
    newObj (c.BetaGenTEGARCH1 initParams) GASModel.BetaGenTEGARCH
  else if modelStr == "BetaTEGARCH" then
    newObj (c.BetaTEGARCH1 initParams) GASModel.BetaTEGARCH
  else do
    stop "Specify an implemented model, see doc for available models."
    return Ptr.NULL

/-- `GASModelFactory::BuildGASModelWParWPrior(String modelStr, NumericVector
initParams, PriorStack priorStack)`, lines 37-48. -/
def BuildGASModelWParWPrior (c : Ctors NV PS E G B) (modelStr : String)
    (initParams : NV) (priorStack : PS) :
    Except (Exception E) (Ptr (GASModel G B)) :=
  if modelStr == "BetaGenTEGARCH" then
    newObj (c.BetaGenTEGARCH2 initParams priorStack) GASModel.BetaGenTEGARCH
  else if modelStr == "BetaTEGARCH" then
    newObj (c.BetaTEGARCH2 initParams priorStack) GASModel.BetaTEGARCH
  else do
    stop "Specify an implemented model, see doc for available models."
    return Ptr.NULL

end Builders

/-! ## Vocabulary of the specification -/

/-- The two model variants that the factory can instantiate. -/
inductive Variant where
  | BetaGenTEGARCH
  | BetaTEGARCH
deriving DecidableEq, Repr

/-- The registry of the specification: the variant that a stable name
string stands for, if any.  It looks at the name and at nothing else. -/
def Variant.ofName (name : String) : Option Variant :=
  if name = "BetaGenTEGARCH" then some Variant.BetaGenTEGARCH
  else if name = "BetaTEGARCH" then some Variant.BetaTEGARCH
  else none

section Shapes

variable {NV PS E G B : Type}

/-- Construction shape (a): the zero-argument constructor of a variant. -/
def construct0 (c : Ctors NV PS E G B) (v : Variant) :
    Except (Exception E) (Ptr (GASModel G B)) :=
  match v with
  | Variant.BetaGenTEGARCH => newObj c.BetaGenTEGARCH0 GASModel.BetaGenTEGARCH
  | Variant.BetaTEGARCH => newObj c.BetaTEGARCH0 GASModel.BetaTEGARCH

/-- Construction shape (b): the one-argument constructor of a variant. -/
def construct1 (c : Ctors NV PS E G B) (v : Variant) (initParams : NV) :
    Except (Exception E) (Ptr (GASModel G B)) :=
  match v with
  | Variant.BetaGenTEGARCH => newObj (c.BetaGenTEGARCH1 initParams) GASModel.BetaGenTEGARCH
  | Variant.BetaTEGARCH => newObj (c.BetaTEGARCH1 initParams) GASModel.BetaTEGARCH

/-- Construction shape (c): the two-argument constructor of a variant. -/
def construct2 (c : Ctors NV PS E G B) (v : Variant) (initParams : NV) (priorStack : PS) :
    Except (Exception E) (Ptr (GASModel G B)) :=
  match v with
  | Variant.BetaGenTEGARCH =>
      newObj (c.BetaGenTEGARCH2 initParams priorStack) GASModel.BetaGenTEGARCH
  | Variant.BetaTEGARCH =>
      newObj (c.BetaTEGARCH2 initParams priorStack) GASModel.BetaTEGARCH

/-- An outcome is a rejection by the factory when it is the exception of
`Rcpp::stop`, as opposed to a pointer or to a constructor's own exception. -/
def rejected (r : Except (Exception E) (Ptr (GASModel G B))) : Bool :=
  match r with
  | Except.error (Exception.stop _) => true
  | _ => false

/-- The variant of the object behind a returned pointer. -/
def variantOf (r : Except (Exception E) (Ptr (GASModel G B))) : Option Variant :=
  match r with
  | Except.ok (Ptr.obj (GASModel.BetaGenTEGARCH _)) => some Variant.BetaGenTEGARCH
  | Except.ok (Ptr.obj (GASModel.BetaTEGARCH _)) => some Variant.BetaTEGARCH
  | _ => none

end Shapes

/-- The arguments that a constructor call received. -/
inductive CtorArgs (NV PS : Type) where
  | defaults
  | withPar (initParams : NV)
  | withParWPrior (initParams : NV) (priorStack : PS)
deriving DecidableEq, Repr

/-- Constructors that never throw and whose object is the record of the
arguments they were called with: they make the call observable. -/
def recordCtors (NV PS : Type) : Ctors NV PS Empty (CtorArgs NV PS) (CtorArgs NV PS) where
  BetaGenTEGARCH0 := Except.ok CtorArgs.defaults
  BetaGenTEGARCH1 := fun p => Except.ok (CtorArgs.withPar p)
  BetaGenTEGARCH2 := fun p s => Except.ok (CtorArgs.withParWPrior p s)
  BetaTEGARCH0 := Except.ok CtorArgs.defaults
  BetaTEGARCH1 := fun p => Except.ok (CtorArgs.withPar p)
  BetaTEGARCH2 := fun p s => Except.ok (CtorArgs.withParWPrior p s)

/-- The text `part` occurs in the text `msg` as a contiguous run of
characters. -/
def mentions (msg part : String) : Prop :=
  part.toList <:+: msg.toList

instance (msg part : String) : Decidable (mentions msg part) :=
  inferInstanceAs (Decidable (part.toList <:+: msg.toList))

/-- The error of an outcome carries a name: the outcome is the exception
of `Rcpp::stop` and its message contains the name. -/
def carriesName {E G B : Type} (r : Except (Exception E) (Ptr (GASModel G B)))
    (name : String) : Prop :=
  match r with
  | Except.error (Exception.stop msg) => mentions msg name
  | _ => False

/-! ## Constructors of the variants, after the specification -/

/-- Modelled from the spec: the failure of a constructor of
`BetaGenTEGARCH` or `BetaTEGARCH`, whose code is not in
`GASModelFactory.cpp`.  The error carries the expected shape and each
actual shape that differs from it (section 7: expected vs. actual shape):
`initParamsLength` is the length of the supplied initParams when it is
wrong, `slotCount` the slot count of the supplied PriorStack when it is
wrong.  The specification gives no order between the two checks, and none
is modelled: one failure reports every mismatch. -/
structure CtorError where
  expected : Nat
  initParamsLength : Option Nat
  slotCount : Option Nat
deriving DecidableEq, Repr

/-- Modelled from the spec: the error class ConstructionError, absent from
`GASModelFactory.cpp`.  Section 4.4: construction fails with
ConstructionError if the supplied initParams length mismatches the required
parameter count, or if the supplied PriorStack's slot count mismatches. -/
def CtorError.isConstructionError (e : CtorError) : Bool :=
  e.initParamsLength.isSome || e.slotCount.isSome

/-- Modelled from the spec: the error class ShapeMismatchError, absent from
`GASModelFactory.cpp`.  Sections 4.2 and 8: a PriorStack whose slot count
differs from the parameter count fails with ShapeMismatchError. -/
def CtorError.isShapeMismatchError (e : CtorError) : Bool :=
  e.slotCount.isSome

/-- Modelled from the spec: the comparison of a supplied shape with the
required parameter count, absent from `GASModelFactory.cpp`; the actual
shape is kept when it differs. -/
def mismatch (expected actual : Nat) : Option Nat :=
  if actual ≠ expected then some actual else none

/-- Modelled from the spec: what a variant fixes (section 4.4), absent from
`GASModelFactory.cpp`: its required parameter count, its default initial
parameters and its default priors. -/
structure VariantSpec (NV PS : Type) where
  numParams : Nat
  defaultParams : NV
  defaultPriors : PS

/-- Modelled from the spec: a constructed model object, absent from
`GASModelFactory.cpp`; it owns its static parameters and its attached
priors (section 3). -/
structure ModelObj (NV PS : Type) where
  params : NV
  priors : PS
deriving DecidableEq, Repr

section SpecCtors

variable {NV PS : Type}

/-- Modelled from the spec: the zero-argument constructor of a variant,
absent from `GASModelFactory.cpp`; shape (a) of section 4.4, defaults for
both params and priors. -/
def specCtor0 (v : VariantSpec NV PS) : Except CtorError (ModelObj NV PS) :=
  Except.ok { params := v.defaultParams, priors := v.defaultPriors }

/-- Modelled from the spec: the one-argument constructor of a variant,
absent from `GASModelFactory.cpp`; shape (b) of section 4.4,
caller-supplied parameters and default priors, failing if the initParams
length mismatches the required parameter count. -/
def specCtor1 (length : NV → Nat) (v : VariantSpec NV PS) (initParams : NV) :
    Except CtorError (ModelObj NV PS) :=
  if length initParams ≠ v.numParams then
    Except.error
      { expected := v.numParams
        initParamsLength := mismatch v.numParams (length initParams)
        slotCount := none }
  else
    Except.ok { params := initParams, priors := v.defaultPriors }

/-- Modelled from the spec: the two-argument constructor of a variant,
absent from `GASModelFactory.cpp`; shape (c) of section 4.4, both
caller-supplied, failing if the initParams length mismatches the required
parameter count or if the PriorStack's slot count mismatches it. -/
def specCtor2 (length : NV → Nat) (slotCount : PS → Nat) (v : VariantSpec NV PS)
    (initParams : NV) (priorStack : PS) : Except CtorError (ModelObj NV PS) :=
  if length initParams ≠ v.numParams ∨ slotCount priorStack ≠ v.numParams then
    Except.error
      { expected := v.numParams
        initParamsLength := mismatch v.numParams (length initParams)
        slotCount := mismatch v.numParams (slotCount priorStack) }
  else
    Except.ok { params := initParams, priors := priorStack }

/-- Modelled from the spec: the six constructors of the two variants,
absent from `GASModelFactory.cpp`, each variant with its own parameter
count and defaults. -/
def specCtors (length : NV → Nat) (slotCount : PS → Nat) (gen beta : VariantSpec NV PS) :
    Ctors NV PS CtorError (ModelObj NV PS) (ModelObj NV PS) where
  BetaGenTEGARCH0 := specCtor0 gen
  BetaGenTEGARCH1 := specCtor1 length gen
  BetaGenTEGARCH2 := specCtor2 length slotCount gen
  BetaTEGARCH0 := specCtor0 beta
  BetaTEGARCH1 := specCtor1 length beta
  BetaTEGARCH2 := specCtor2 length slotCount beta

/-- The description of a variant among the two given ones. -/
def specOf (gen beta : VariantSpec NV PS) (v : Variant) : VariantSpec NV PS :=
  match v with
  | Variant.BetaGenTEGARCH => gen
  | Variant.BetaTEGARCH => beta

end SpecCtors

/-- A sample description of BetaGenTEGARCH over lists: five parameters, all
defaults zero, five prior slots. -/
def exampleGen : VariantSpec (List Int) (List Nat) :=
  { numParams := 5, defaultParams := [0, 0, 0, 0, 0], defaultPriors := [0, 0, 0, 0, 0] }

/-- A sample description of BetaTEGARCH over lists: four parameters, all
defaults zero, four prior slots. -/
def exampleBeta : VariantSpec (List Int) (List Nat) :=
  { numParams := 4, defaultParams := [0, 0, 0, 0], defaultPriors := [0, 0, 0, 0] }

/-- Constructors that all throw the same given exception. -/
def throwingCtors (NV PS G B : Type) {E : Type} (e : E) : Ctors NV PS E G B where
  BetaGenTEGARCH0 := Except.error e
  BetaGenTEGARCH1 := fun _ => Except.error e
  BetaGenTEGARCH2 := fun _ _ => Except.error e
  BetaTEGARCH0 := Except.error e
  BetaTEGARCH1 := fun _ => Except.error e
  BetaTEGARCH2 := fun _ _ => Except.error e

/-! ## Basic facts about the three builders -/

section Lemmas

variable {NV PS E G B : Type}

theorem ofName_eq_none {name : String} (hGen : name ≠ "BetaGenTEGARCH")
    (hBeta : name ≠ "BetaTEGARCH") : Variant.ofName name = none := by
  simp [Variant.ofName, hGen, hBeta]

theorem ofName_eq_some {name : String} {v : Variant} (h : Variant.ofName name = some v) :
    (name = "BetaGenTEGARCH" ∧ v = Variant.BetaGenTEGARCH) ∨
      (name = "BetaTEGARCH" ∧ v = Variant.BetaTEGARCH) := by
  unfold Variant.ofName at h
  split_ifs at h with h1 h2
  · left; exact ⟨h1, by simpa using h.symm⟩
  · right; exact ⟨h2, by simpa using h.symm⟩

theorem BuildGASModel_other (c : Ctors NV PS E G B) {name : String}
    (hGen : name ≠ "BetaGenTEGARCH") (hBeta : name ≠ "BetaTEGARCH") :
    BuildGASModel c name =
      Except.error (Exception.stop "Specify an implemented model, see doc for available models.") := by
  simp [BuildGASModel, hGen, hBeta]
  rfl

theorem BuildGASModelWPar_other (c : Ctors NV PS E G B) {name : String}
    (hGen : name ≠ "BetaGenTEGARCH") (hBeta : name ≠ "BetaTEGARCH") (p : NV) :
    BuildGASModelWPar c name p =
      Except.error (Exception.stop "Specify an implemented model, see doc for available models.") := by
  simp [BuildGASModelWPar, hGen, hBeta]
  rfl

theorem BuildGASModelWParWPrior_other (c : Ctors NV PS E G B) {name : String}
    (hGen : name ≠ "BetaGenTEGARCH") (hBeta : name ≠ "BetaTEGARCH") (p : NV) (s : PS) :
    BuildGASModelWParWPrior c name p s =
      Except.error (Exception.stop "Specify an implemented model, see doc for available models.") := by
  simp [BuildGASModelWParWPrior, hGen, hBeta]
  rfl

theorem newObj_ne_stop {α : Type} (built : Except E α) (up : α → GASModel G B) (msg : String) :
    newObj built up ≠ Except.error (Exception.stop msg) := by
  cases built <;> simp [newObj]

theorem newObj_ne_null {α : Type} (built : Except E α) (up : α → GASModel G B) :
    newObj built up ≠ Except.ok Ptr.NULL := by
  cases built <;> simp [newObj]

theorem newObj_cases {α : Type} (built : Except E α) (up : α → GASModel G B) :
    (∃ o, built = Except.ok o ∧ newObj built up = Except.ok (Ptr.obj (up o))) ∨
      (∃ e, built = Except.error e ∧ newObj built up = Except.error (Exception.ctor e)) := by
  cases built with
  | ok o => exact Or.inl ⟨o, rfl, rfl⟩
  | error e => exact Or.inr ⟨e, rfl, rfl⟩

theorem rejected_newObj {α : Type} (built : Except E α) (up : α → GASModel G B) :
    rejected (newObj built up) = false := by
  cases built <;> rfl

end Lemmas

/-! ## Unsupported names -/

section Claims

variable {NV PS E G B : Type}

/-- C1: for every name other than exactly "BetaGenTEGARCH" and
"BetaTEGARCH", whatever the constructors, initParams and priorStack are,
each of the three builders ends in an error and returns no pointer at all,
hence no model object. -/
theorem unsupported_name_fails (c : Ctors NV PS E G B) (name : String)
    (hGen : name ≠ "BetaGenTEGARCH") (hBeta : name ≠ "BetaTEGARCH")
    (initParams : NV) (priorStack : PS) :
    ((∃ e, BuildGASModel c name = Except.error e) ∧
        ∀ ptr, BuildGASModel c name ≠ Except.ok ptr) ∧
      ((∃ e, BuildGASModelWPar c name initParams = Except.error e) ∧
        ∀ ptr, BuildGASModelWPar c name initParams ≠ Except.ok ptr) ∧
      ((∃ e, BuildGASModelWParWPrior c name initParams priorStack = Except.error e) ∧
        ∀ ptr, BuildGASModelWParWPrior c name initParams priorStack ≠ Except.ok ptr) := by
  rw [BuildGASModel_other c hGen hBeta, BuildGASModelWPar_other c hGen hBeta,
    BuildGASModelWParWPrior_other c hGen hBeta]
  refine ⟨⟨⟨_, rfl⟩, ?_⟩, ⟨⟨_, rfl⟩, ?_⟩, ⟨⟨_, rfl⟩, ?_⟩⟩ <;>
  · intro ptr h
    cases h

/-- C1 at concrete names: the empty string, a name in another letter case,
and names with an extra leading or trailing character are all refused. -/
theorem unsupported_name_fails_witness :
    ((((∃ e, BuildGASModel (recordCtors (List Int) (List Nat)) "" = Except.error e) ∧
          ∀ ptr, BuildGASModel (recordCtors (List Int) (List Nat)) "" ≠ Except.ok ptr) ∧
        ((∃ e, BuildGASModelWPar (recordCtors (List Int) (List Nat)) "" [1, 2] =
            Except.error e) ∧
          ∀ ptr, BuildGASModelWPar (recordCtors (List Int) (List Nat)) "" [1, 2] ≠
            Except.ok ptr) ∧
        ((∃ e, BuildGASModelWParWPrior (recordCtors (List Int) (List Nat)) "" [1, 2] [0] =
            Except.error e) ∧
          ∀ ptr, BuildGASModelWParWPrior (recordCtors (List Int) (List Nat)) "" [1, 2] [0] ≠
            Except.ok ptr))) ∧
      (∃ e, BuildGASModel (recordCtors (List Int) (List Nat)) "betategarch" = Except.error e) ∧
      (∃ e, BuildGASModelWPar (recordCtors (List Int) (List Nat)) "BETAGENTEGARCH" [] =
        Except.error e) ∧
      (∃ e, BuildGASModelWParWPrior (recordCtors (List Int) (List Nat)) " BetaTEGARCH" [] [] =
        Except.error e) ∧
      (∃ e, BuildGASModel (recordCtors (List Int) (List Nat)) "BetaGenTEGARCH " =
        Except.error e) :=
  ⟨unsupported_name_fails (recordCtors (List Int) (List Nat)) "" (by decide) (by decide)
      [1, 2] [0],
    (unsupported_name_fails (recordCtors (List Int) (List Nat)) "betategarch" (by decide)
      (by decide) [] []).1.1,
    (unsupported_name_fails (recordCtors (List Int) (List Nat)) "BETAGENTEGARCH" (by decide)
      (by decide) [] []).2.1.1,
    (unsupported_name_fails (recordCtors (List Int) (List Nat)) " BetaTEGARCH" (by decide)
      (by decide) [] []).2.2.1,
    (unsupported_name_fails (recordCtors (List Int) (List Nat)) "BetaGenTEGARCH " (by decide)
      (by decide) [] []).1.1⟩

/-! ## Supported names -/

/-- C2: in each of the three builders the name "BetaGenTEGARCH" runs a
constructor of BetaGenTEGARCH and the name "BetaTEGARCH" runs a constructor
of BetaTEGARCH, and the outcome is exactly that of the constructor: when
the constructor yields an object the builder returns a non-null pointer to
that object, tagged with its class, and when the constructor throws the
builder ends in that same exception; it never ends in the exception of
stop.  For every other name the outcome is the exception of stop whatever
the constructors would do, so that no constructor takes part in it. -/
theorem name_selects_constructor (c : Ctors NV PS E G B) (initParams : NV) (priorStack : PS) :
    (BuildGASModel c "BetaGenTEGARCH" =
          (match c.BetaGenTEGARCH0 with
            | Except.ok o => Except.ok (Ptr.obj (GASModel.BetaGenTEGARCH o))
            | Except.error e => Except.error (Exception.ctor e)) ∧
        BuildGASModelWPar c "BetaGenTEGARCH" initParams =
          (match c.BetaGenTEGARCH1 initParams with
            | Except.ok o => Except.ok (Ptr.obj (GASModel.BetaGenTEGARCH o))
            | Except.error e => Except.error (Exception.ctor e)) ∧
        BuildGASModelWParWPrior c "BetaGenTEGARCH" initParams priorStack =
          (match c.BetaGenTEGARCH2 initParams priorStack with
            | Except.ok o => Except.ok (Ptr.obj (GASModel.BetaGenTEGARCH o))
            | Except.error e => Except.error (Exception.ctor e))) ∧
      (BuildGASModel c "BetaTEGARCH" =
          (match c.BetaTEGARCH0 with
            | Except.ok o => Except.ok (Ptr.obj (GASModel.BetaTEGARCH o))
            | Except.error e => Except.error (Exception.ctor e)) ∧
        BuildGASModelWPar c "BetaTEGARCH" initParams =
          (match c.BetaTEGARCH1 initParams with
            | Except.ok o => Except.ok (Ptr.obj (GASModel.BetaTEGARCH o))
            | Except.error e => Except.error (Exception.ctor e)) ∧
        BuildGASModelWParWPrior c "BetaTEGARCH" initParams priorStack =
          (match c.BetaTEGARCH2 initParams priorStack with
            | Except.ok o => Except.ok (Ptr.obj (GASModel.BetaTEGARCH o))
            | Except.error e => Except.error (Exception.ctor e))) ∧
      (∀ name, name = "BetaGenTEGARCH" ∨ name = "BetaTEGARCH" → ∀ msg,
        BuildGASModel c name ≠ Except.error (Exception.stop msg) ∧
        BuildGASModelWPar c name initParams ≠ Except.error (Exception.stop msg) ∧
        BuildGASModelWParWPrior c name initParams priorStack ≠
          Except.error (Exception.stop msg)) ∧
      (∀ name, name ≠ "BetaGenTEGARCH" → name ≠ "BetaTEGARCH" →
        ∀ d : Ctors NV PS E G B,
          BuildGASModel c name = BuildGASModel d name ∧
          BuildGASModelWPar c name initParams = BuildGASModelWPar d name initParams ∧
          BuildGASModelWParWPrior c name initParams priorStack =
            BuildGASModelWParWPrior d name initParams priorStack ∧
          rejected (BuildGASModel c name) = true ∧
          rejected (BuildGASModelWPar c name initParams) = true ∧
          rejected (BuildGASModelWParWPrior c name initParams priorStack) = true) := by
  have run : ∀ {α : Type} (built : Except E α) (up : α → GASModel G B),
      newObj built up =
        (match built with
          | Except.ok o => Except.ok (Ptr.obj (up o))
          | Except.error e => Except.error (Exception.ctor e)) := by
    intro α built up
    cases built <;> rfl
  refine ⟨⟨run _ _, run _ _, run _ _⟩, ⟨run _ _, run _ _, run _ _⟩, ?_, ?_⟩
  · intro name hname msg
    rcases hname with h | h <;> subst h
    · exact ⟨newObj_ne_stop _ _ msg, newObj_ne_stop _ _ msg, newObj_ne_stop _ _ msg⟩
    · exact ⟨newObj_ne_stop _ _ msg, newObj_ne_stop _ _ msg, newObj_ne_stop _ _ msg⟩
  · intro name hGen hBeta d
    rw [BuildGASModel_other c hGen hBeta, BuildGASModelWPar_other c hGen hBeta,
      BuildGASModelWParWPrior_other c hGen hBeta, BuildGASModel_other d hGen hBeta,
      BuildGASModelWPar_other d hGen hBeta, BuildGASModelWParWPrior_other d hGen hBeta]
    exact ⟨rfl, rfl, rfl, rfl, rfl, rfl⟩

/-- C2 at concrete inputs: with constructors that record their arguments
"BetaGenTEGARCH" and [1, 2] give a pointer to a BetaGenTEGARCH built from
[1, 2]; with constructors that throw 7 the name "BetaTEGARCH" ends in the
exception 7 of the constructor; "BetaTEGARCH" never ends in an exception of
stop; "Unknown" is rejected. -/
theorem name_selects_constructor_witness :
    BuildGASModelWPar (recordCtors (List Int) (List Nat)) "BetaGenTEGARCH" [1, 2] =
        Except.ok (Ptr.obj (GASModel.BetaGenTEGARCH (CtorArgs.withPar [1, 2]))) ∧
      BuildGASModelWParWPrior (throwingCtors (List Int) (List Nat) Nat Nat (7 : Nat))
          "BetaTEGARCH" [1, 2] [0] =
        Except.error (Exception.ctor 7) ∧
      BuildGASModel (recordCtors (List Int) (List Nat)) "BetaTEGARCH" ≠
        Except.error (Exception.stop "no such model") ∧
      rejected (BuildGASModelWParWPrior (recordCtors (List Int) (List Nat)) "Unknown"
        [1, 2] [0]) = true :=
  ⟨(name_selects_constructor (recordCtors (List Int) (List Nat)) [1, 2] [0]).1.2.1,
    (name_selects_constructor (throwingCtors (List Int) (List Nat) Nat Nat (7 : Nat))
      [1, 2] [0]).2.1.2.2,
    ((name_selects_constructor (recordCtors (List Int) (List Nat)) [1, 2] [0]).2.2.1
      "BetaTEGARCH" (Or.inr rfl) "no such model").1,
    ((name_selects_constructor (recordCtors (List Int) (List Nat)) [1, 2] [0]).2.2.2
      "Unknown" (by decide) (by decide) (recordCtors (List Int) (List Nat))).2.2.2.2.2⟩

/-- C3: for a supported name, standing for the variant v, BuildGASModel
runs the zero-argument constructor of v, BuildGASModelWPar runs its
one-argument constructor on the caller's initParams, and
BuildGASModelWParWPrior runs its two-argument constructor on the caller's
initParams and priorStack; with constructors that record what they
receive, the records hold no argument, exactly initParams, and exactly
initParams followed by priorStack. -/
theorem builders_match_construction_shapes (c : Ctors NV PS E G B) (name : String)
    (v : Variant) (hname : Variant.ofName name = some v) (initParams : NV)
    (priorStack : PS) :
    (BuildGASModel c name = construct0 c v ∧
        BuildGASModelWPar c name initParams = construct1 c v initParams ∧
        BuildGASModelWParWPrior c name initParams priorStack =
          construct2 c v initParams priorStack) ∧
      ((BuildGASModel (recordCtors NV PS) name =
            Except.ok (Ptr.obj (GASModel.BetaGenTEGARCH CtorArgs.defaults)) ∧
          BuildGASModelWPar (recordCtors NV PS) name initParams =
            Except.ok (Ptr.obj (GASModel.BetaGenTEGARCH (CtorArgs.withPar initParams))) ∧
          BuildGASModelWParWPrior (recordCtors NV PS) name initParams priorStack =
            Except.ok (Ptr.obj (GASModel.BetaGenTEGARCH
              (CtorArgs.withParWPrior initParams priorStack)))) ∨
        (BuildGASModel (recordCtors NV PS) name =
            Except.ok (Ptr.obj (GASModel.BetaTEGARCH CtorArgs.defaults)) ∧
          BuildGASModelWPar (recordCtors NV PS) name initParams =
            Except.ok (Ptr.obj (GASModel.BetaTEGARCH (CtorArgs.withPar initParams))) ∧
          BuildGASModelWParWPrior (recordCtors NV PS) name initParams priorStack =
            Except.ok (Ptr.obj (GASModel.BetaTEGARCH
              (CtorArgs.withParWPrior initParams priorStack))))) := by
  rcases ofName_eq_some hname with ⟨h, hv⟩ | ⟨h, hv⟩ <;> subst h <;> subst hv
  · exact ⟨⟨rfl, rfl, rfl⟩, Or.inl ⟨rfl, rfl, rfl⟩⟩
  · exact ⟨⟨rfl, rfl, rfl⟩, Or.inr ⟨rfl, rfl, rfl⟩⟩

/-- C3 at the name "BetaTEGARCH" with initParams [3, -1] and priorStack
[7]: the two-argument constructor receives [3, -1] and [7]. -/
theorem builders_match_construction_shapes_witness :
    BuildGASModelWParWPrior (recordCtors (List Int) (List Nat)) "BetaTEGARCH" [3, -1] [7] =
        construct2 (recordCtors (List Int) (List Nat)) Variant.BetaTEGARCH [3, -1] [7] ∧
      construct2 (recordCtors (List Int) (List Nat)) Variant.BetaTEGARCH [3, -1] [7] =
        Except.ok (Ptr.obj (GASModel.BetaTEGARCH (CtorArgs.withParWPrior [3, -1] [7]))) :=
  ⟨(builders_match_construction_shapes (recordCtors (List Int) (List Nat)) "BetaTEGARCH"
      Variant.BetaTEGARCH (by decide) [3, -1] [7]).1.2.2, rfl⟩

/-! ## No null pointer -/

/-- C5: whatever the name, the constructors, initParams and priorStack are,
no builder returns the null pointer: its outcome is a pointer to an object
of BetaGenTEGARCH that a constructor has just produced, or such a pointer
to an object of BetaTEGARCH, or an exception.  The statement after stop is
never reached: stop raises for every message, and stop followed by the
return of NULL is the exception of stop. -/
theorem never_returns_null (c : Ctors NV PS E G B) (name : String) (initParams : NV)
    (priorStack : PS) :
    (BuildGASModel c name ≠ Except.ok Ptr.NULL ∧
        ((∃ o, c.BetaGenTEGARCH0 = Except.ok o ∧
            BuildGASModel c name = Except.ok (Ptr.obj (GASModel.BetaGenTEGARCH o))) ∨
          (∃ o, c.BetaTEGARCH0 = Except.ok o ∧
            BuildGASModel c name = Except.ok (Ptr.obj (GASModel.BetaTEGARCH o))) ∨
          ∃ e, BuildGASModel c name = Except.error e)) ∧
      (BuildGASModelWPar c name initParams ≠ Except.ok Ptr.NULL ∧
        ((∃ o, c.BetaGenTEGARCH1 initParams = Except.ok o ∧
            BuildGASModelWPar c name initParams =
              Except.ok (Ptr.obj (GASModel.BetaGenTEGARCH o))) ∨
          (∃ o, c.BetaTEGARCH1 initParams = Except.ok o ∧
            BuildGASModelWPar c name initParams =
              Except.ok (Ptr.obj (GASModel.BetaTEGARCH o))) ∨
          ∃ e, BuildGASModelWPar c name initParams = Except.error e)) ∧
      (BuildGASModelWParWPrior c name initParams priorStack ≠ Except.ok Ptr.NULL ∧
        ((∃ o, c.BetaGenTEGARCH2 initParams priorStack = Except.ok o ∧
            BuildGASModelWParWPrior c name initParams priorStack =
              Except.ok (Ptr.obj (GASModel.BetaGenTEGARCH o))) ∨
          (∃ o, c.BetaTEGARCH2 initParams priorStack = Except.ok o ∧
            BuildGASModelWParWPrior c name initParams priorStack =
              Except.ok (Ptr.obj (GASModel.BetaTEGARCH o))) ∨
          ∃ e, BuildGASModelWParWPrior c name initParams priorStack = Except.error e)) ∧
      (∀ msg : String, (stop msg : Except (Exception E) Unit) =
          Except.error (Exception.stop msg)) ∧
      (∀ msg : String,
        (do
          stop msg
          return Ptr.NULL : Except (Exception E) (Ptr (GASModel G B))) =
        Except.error (Exception.stop msg)) := by
  have key : ∀ {α : Type} (built : Except E α) (up : α → GASModel G B)
      (r : Except (Exception E) (Ptr (GASModel G B))), r = newObj built up →
      r ≠ Except.ok Ptr.NULL ∧
        ((∃ o, built = Except.ok o ∧ r = Except.ok (Ptr.obj (up o))) ∨
          ∃ e, r = Except.error e) := by
    intro α built up r hr
    subst hr
    refine ⟨newObj_ne_null built up, ?_⟩
    rcases newObj_cases built up with ⟨o, h1, h2⟩ | ⟨e, _, h2⟩
    · exact Or.inl ⟨o, h1, h2⟩
    · exact Or.inr ⟨_, h2⟩
  have stopped : ∀ r : Except (Exception E) (Ptr (GASModel G B)),
      r = Except.error
        (Exception.stop "Specify an implemented model, see doc for available models.") →
      r ≠ Except.ok Ptr.NULL ∧ ∃ e, r = Except.error e := by
    intro r hr
    subst hr
    exact ⟨(fun h => nomatch h), _, rfl⟩
  refine ⟨?_, ?_, ?_, fun _ => rfl, fun _ => rfl⟩
  · by_cases hGen : name = "BetaGenTEGARCH"
    · subst hGen
      obtain ⟨h1, h2⟩ := key c.BetaGenTEGARCH0 GASModel.BetaGenTEGARCH _
        (rfl : BuildGASModel c "BetaGenTEGARCH" = _)
      exact ⟨h1, h2.elim Or.inl (fun h => Or.inr (Or.inr h))⟩
    · by_cases hBeta : name = "BetaTEGARCH"
      · subst hBeta
        obtain ⟨h1, h2⟩ := key c.BetaTEGARCH0 GASModel.BetaTEGARCH _
          (rfl : BuildGASModel c "BetaTEGARCH" = _)
        exact ⟨h1, h2.elim (fun h => Or.inr (Or.inl h)) (fun h => Or.inr (Or.inr h))⟩
      · obtain ⟨h1, h2⟩ := stopped _ (BuildGASModel_other c hGen hBeta)
        exact ⟨h1, Or.inr (Or.inr h2)⟩
  · by_cases hGen : name = "BetaGenTEGARCH"
    · subst hGen
      obtain ⟨h1, h2⟩ := key (c.BetaGenTEGARCH1 initParams) GASModel.BetaGenTEGARCH _
        (rfl : BuildGASModelWPar c "BetaGenTEGARCH" initParams = _)
      exact ⟨h1, h2.elim Or.inl (fun h => Or.inr (Or.inr h))⟩
    · by_cases hBeta : name = "BetaTEGARCH"
      · subst hBeta
        obtain ⟨h1, h2⟩ := key (c.BetaTEGARCH1 initParams) GASModel.BetaTEGARCH _
          (rfl : BuildGASModelWPar c "BetaTEGARCH" initParams = _)
        exact ⟨h1, h2.elim (fun h => Or.inr (Or.inl h)) (fun h => Or.inr (Or.inr h))⟩
      · obtain ⟨h1, h2⟩ := stopped _ (BuildGASModelWPar_other c hGen hBeta initParams)
        exact ⟨h1, Or.inr (Or.inr h2)⟩
  · by_cases hGen : name = "BetaGenTEGARCH"
    · subst hGen
      obtain ⟨h1, h2⟩ := key (c.BetaGenTEGARCH2 initParams priorStack)
        GASModel.BetaGenTEGARCH _
        (rfl : BuildGASModelWParWPrior c "BetaGenTEGARCH" initParams priorStack = _)
      exact ⟨h1, h2.elim Or.inl (fun h => Or.inr (Or.inr h))⟩
    · by_cases hBeta : name = "BetaTEGARCH"
      · subst hBeta
        obtain ⟨h1, h2⟩ := key (c.BetaTEGARCH2 initParams priorStack)
          GASModel.BetaTEGARCH _
          (rfl : BuildGASModelWParWPrior c "BetaTEGARCH" initParams priorStack = _)
        exact ⟨h1, h2.elim (fun h => Or.inr (Or.inl h)) (fun h => Or.inr (Or.inr h))⟩
      · obtain ⟨h1, h2⟩ := stopped _
          (BuildGASModelWParWPrior_other c hGen hBeta initParams priorStack)
        exact ⟨h1, Or.inr (Or.inr h2)⟩

/-! ## The message of the rejection -/

/-- C4, refuted as stated: "Unknown" is an unrecognized name, each builder
refuses it with the exception of stop, and the message of that exception
does not contain "Unknown". -/
theorem unknown_name_not_in_message :
    "Unknown" ≠ "BetaGenTEGARCH" ∧ "Unknown" ≠ "BetaTEGARCH" ∧
      BuildGASModel (recordCtors (List Int) (List Nat)) "Unknown" =
        Except.error
          (Exception.stop "Specify an implemented model, see doc for available models.") ∧
      ¬ carriesName (BuildGASModel (recordCtors (List Int) (List Nat)) "Unknown") "Unknown" ∧
      ¬ carriesName (BuildGASModelWPar (recordCtors (List Int) (List Nat)) "Unknown" [1])
        "Unknown" ∧
      ¬ carriesName
        (BuildGASModelWParWPrior (recordCtors (List Int) (List Nat)) "Unknown" [1] [2])
        "Unknown" := by
  have h : ¬ mentions "Specify an implemented model, see doc for available models."
      "Unknown" := by decide
  exact ⟨by decide, by decide, rfl, h, h, h⟩

/-- C4, amended: for every unrecognized name the error raised by each
builder carries one fixed message, "Specify an implemented model, see doc
for available models.", the same for every unrecognized name; the error
carries the offered name exactly when the name happens to occur in that
fixed text. -/
theorem rejection_message_is_fixed (c : Ctors NV PS E G B) (name : String)
    (hGen : name ≠ "BetaGenTEGARCH") (hBeta : name ≠ "BetaTEGARCH")
    (initParams : NV) (priorStack : PS) :
    (∀ other : String, other ≠ "BetaGenTEGARCH" → other ≠ "BetaTEGARCH" →
        BuildGASModel c name = BuildGASModel c other ∧
        BuildGASModelWPar c name initParams = BuildGASModelWPar c other initParams ∧
        BuildGASModelWParWPrior c name initParams priorStack =
          BuildGASModelWParWPrior c other initParams priorStack) ∧
      (carriesName (BuildGASModel c name) name ↔
        mentions "Specify an implemented model, see doc for available models." name) ∧
      (carriesName (BuildGASModelWPar c name initParams) name ↔
        mentions "Specify an implemented model, see doc for available models." name) ∧
      (carriesName (BuildGASModelWParWPrior c name initParams priorStack) name ↔
        mentions "Specify an implemented model, see doc for available models." name) := by
  refine ⟨?_, ?_, ?_, ?_⟩
  · intro other oGen oBeta
    rw [BuildGASModel_other c hGen hBeta, BuildGASModelWPar_other c hGen hBeta,
      BuildGASModelWParWPrior_other c hGen hBeta, BuildGASModel_other c oGen oBeta,
      BuildGASModelWPar_other c oGen oBeta, BuildGASModelWParWPrior_other c oGen oBeta]
    exact ⟨rfl, rfl, rfl⟩
  · rw [BuildGASModel_other c hGen hBeta]
    exact Iff.rfl
  · rw [BuildGASModelWPar_other c hGen hBeta]
    exact Iff.rfl
  · rw [BuildGASModelWParWPrior_other c hGen hBeta]
    exact Iff.rfl

/-- C4, amended, at concrete names: "Unknown" and "" are refused with the
same outcome; the message does not contain "Unknown", and it does contain
the unrecognized name "model". -/
theorem rejection_message_is_fixed_witness :
    BuildGASModel (recordCtors (List Int) (List Nat)) "Unknown" =
        BuildGASModel (recordCtors (List Int) (List Nat)) "" ∧
      ¬ carriesName (BuildGASModelWPar (recordCtors (List Int) (List Nat)) "Unknown" [1])
        "Unknown" ∧
      carriesName (BuildGASModel (recordCtors (List Int) (List Nat)) "model") "model" :=
  ⟨((rejection_message_is_fixed (recordCtors (List Int) (List Nat)) "Unknown" (by decide)
      (by decide) [1] [2]).1 "" (by decide) (by decide)).1,
    fun h => absurd
      ((rejection_message_is_fixed (recordCtors (List Int) (List Nat)) "Unknown" (by decide)
        (by decide) [1] [2]).2.2.1.mp h) (by decide),
    (rejection_message_is_fixed (recordCtors (List Int) (List Nat)) "model" (by decide)
      (by decide) [1] [2]).2.1.mpr (by decide)⟩

/-- C6: for every unrecognized name the three builders raise one and the
same message through stop, and that message tells the caller to specify an
implemented model and to see the doc for available models. -/
theorem rejection_message_gives_hint (c : Ctors NV PS E G B) (name : String)
    (hGen : name ≠ "BetaGenTEGARCH") (hBeta : name ≠ "BetaTEGARCH")
    (initParams : NV) (priorStack : PS) :
    ∃ msg : String,
      BuildGASModel c name = Except.error (Exception.stop msg) ∧
      BuildGASModelWPar c name initParams = Except.error (Exception.stop msg) ∧
      BuildGASModelWParWPrior c name initParams priorStack =
        Except.error (Exception.stop msg) ∧
      mentions msg "Specify an implemented model" ∧
      mentions msg "see doc for available models" :=
  ⟨"Specify an implemented model, see doc for available models.",
    BuildGASModel_other c hGen hBeta, BuildGASModelWPar_other c hGen hBeta initParams,
    BuildGASModelWParWPrior_other c hGen hBeta initParams priorStack, by decide, by decide⟩

/-- C6 at the name "Unknown". -/
theorem rejection_message_gives_hint_witness :
    ∃ msg : String,
      BuildGASModel (recordCtors (List Int) (List Nat)) "Unknown" =
        Except.error (Exception.stop msg) ∧
      BuildGASModelWPar (recordCtors (List Int) (List Nat)) "Unknown" [1] =
        Except.error (Exception.stop msg) ∧
      BuildGASModelWParWPrior (recordCtors (List Int) (List Nat)) "Unknown" [1] [2] =
        Except.error (Exception.stop msg) ∧
      mentions msg "Specify an implemented model" ∧
      mentions msg "see doc for available models" :=
  rejection_message_gives_hint (recordCtors (List Int) (List Nat)) "Unknown" (by decide)
    (by decide) [1] [2]

/-! ## Mismatched shapes -/

/-- C7: with the constructors of the specification, for a supported name
standing for the variant v, whose required parameter count is k.  If the
length of initParams differs from k, BuildGASModelWPar and
BuildGASModelWParWPrior both end in the constructor's error, which is a
ConstructionError reporting that length, whatever priorStack is.  If the
slot count of priorStack differs from k, BuildGASModelWParWPrior ends in
the constructor's error, which is a ShapeMismatchError reporting that slot
count, whatever initParams is.  In neither case does a builder return a
pointer, so no model is returned. -/
theorem mismatched_shapes_fail (length : NV → Nat) (slotCount : PS → Nat)
    (gen beta : VariantSpec NV PS) (name : String) (v : Variant)
    (hname : Variant.ofName name = some v) (initParams : NV) (priorStack : PS) :
    (length initParams ≠ (specOf gen beta v).numParams →
        (∃ e, BuildGASModelWPar (specCtors length slotCount gen beta) name initParams =
            Except.error (Exception.ctor e) ∧
          e.isConstructionError = true ∧ e.expected = (specOf gen beta v).numParams ∧
          e.initParamsLength = some (length initParams)) ∧
        (∃ e, BuildGASModelWParWPrior (specCtors length slotCount gen beta) name initParams
              priorStack = Except.error (Exception.ctor e) ∧
          e.isConstructionError = true ∧ e.expected = (specOf gen beta v).numParams ∧
          e.initParamsLength = some (length initParams)) ∧
        (∀ ptr, BuildGASModelWPar (specCtors length slotCount gen beta) name initParams ≠
          Except.ok ptr) ∧
        ∀ ptr, BuildGASModelWParWPrior (specCtors length slotCount gen beta) name initParams
          priorStack ≠ Except.ok ptr) ∧
      (slotCount priorStack ≠ (specOf gen beta v).numParams →
        (∃ e, BuildGASModelWParWPrior (specCtors length slotCount gen beta) name initParams
              priorStack = Except.error (Exception.ctor e) ∧
          e.isShapeMismatchError = true ∧ e.expected = (specOf gen beta v).numParams ∧
          e.slotCount = some (slotCount priorStack)) ∧
        ∀ ptr, BuildGASModelWParWPrior (specCtors length slotCount gen beta) name initParams
          priorStack ≠ Except.ok ptr) := by
  have one : ∀ w : VariantSpec NV PS, ∀ up : ModelObj NV PS → GASModel (ModelObj NV PS)
      (ModelObj NV PS), length initParams ≠ w.numParams →
      newObj (specCtor1 length w initParams) up =
        Except.error (Exception.ctor
          { expected := w.numParams
            initParamsLength := some (length initParams)
            slotCount := none }) := by
    intro w up h
    simp [specCtor1, h, newObj, mismatch]
  have two : ∀ w : VariantSpec NV PS, ∀ up : ModelObj NV PS → GASModel (ModelObj NV PS)
      (ModelObj NV PS), length initParams ≠ w.numParams →
      newObj (specCtor2 length slotCount w initParams priorStack) up =
        Except.error (Exception.ctor
          { expected := w.numParams
            initParamsLength := some (length initParams)
            slotCount := mismatch w.numParams (slotCount priorStack) }) := by
    intro w up h
    simp [specCtor2, h, newObj, mismatch]
  have three : ∀ w : VariantSpec NV PS, ∀ up : ModelObj NV PS → GASModel (ModelObj NV PS)
      (ModelObj NV PS), slotCount priorStack ≠ w.numParams →
      newObj (specCtor2 length slotCount w initParams priorStack) up =
        Except.error (Exception.ctor
          { expected := w.numParams
            initParamsLength := mismatch w.numParams (length initParams)
            slotCount := some (slotCount priorStack) }) := by
    intro w up h
    simp [specCtor2, h, newObj, mismatch]
  have noPtr : ∀ (r : Except (Exception CtorError)
      (Ptr (GASModel (ModelObj NV PS) (ModelObj NV PS)))) (e : CtorError),
      r = Except.error (Exception.ctor e) → ∀ ptr, r ≠ Except.ok ptr := by
    intro r e hr ptr h
    rw [hr] at h
    cases h
  have all : ∀ w : VariantSpec NV PS, ∀ up : ModelObj NV PS → GASModel (ModelObj NV PS)
      (ModelObj NV PS),
      (length initParams ≠ w.numParams →
        (∃ e, newObj (specCtor1 length w initParams) up = Except.error (Exception.ctor e) ∧
          e.isConstructionError = true ∧ e.expected = w.numParams ∧
          e.initParamsLength = some (length initParams)) ∧
        (∃ e, newObj (specCtor2 length slotCount w initParams priorStack) up =
            Except.error (Exception.ctor e) ∧
          e.isConstructionError = true ∧ e.expected = w.numParams ∧
          e.initParamsLength = some (length initParams)) ∧
        (∀ ptr, newObj (specCtor1 length w initParams) up ≠ Except.ok ptr) ∧
        ∀ ptr, newObj (specCtor2 length slotCount w initParams priorStack) up ≠
          Except.ok ptr) ∧
      (slotCount priorStack ≠ w.numParams →
        (∃ e, newObj (specCtor2 length slotCount w initParams priorStack) up =
            Except.error (Exception.ctor e) ∧
          e.isShapeMismatchError = true ∧ e.expected = w.numParams ∧
          e.slotCount = some (slotCount priorStack)) ∧
        ∀ ptr, newObj (specCtor2 length slotCount w initParams priorStack) up ≠
          Except.ok ptr) := by
    intro w up
    refine ⟨fun h => ⟨⟨_, one w up h, rfl, rfl, rfl⟩, ⟨_, two w up h, rfl, rfl, rfl⟩,
      noPtr _ _ (one w up h), noPtr _ _ (two w up h)⟩,
      fun h => ⟨⟨_, three w up h, rfl, rfl, rfl⟩, noPtr _ _ (three w up h)⟩⟩
  rcases ofName_eq_some hname with ⟨h, hv⟩ | ⟨h, hv⟩ <;> subst h <;> subst hv
  · exact all gen GASModel.BetaGenTEGARCH
  · exact all beta GASModel.BetaTEGARCH

/-- C7 at concrete inputs, for a BetaTEGARCH of four parameters, with
initParams [1, 2] and a PriorStack of one slot, both of the wrong shape:
BuildGASModelWPar ends in an error that reports the length 2, and
BuildGASModelWParWPrior ends in one error that reports the length 2 and the
slot count 1, a ConstructionError and a ShapeMismatchError at once. -/
theorem mismatched_shapes_fail_witness :
    ((∃ e, BuildGASModelWPar (specCtors List.length List.length exampleGen exampleBeta)
            "BetaTEGARCH" [1, 2] = Except.error (Exception.ctor e) ∧
          e.isConstructionError = true ∧ e.expected = 4 ∧ e.initParamsLength = some 2) ∧
        (∃ e, BuildGASModelWParWPrior
            (specCtors List.length List.length exampleGen exampleBeta)
            "BetaTEGARCH" [1, 2] [0] = Except.error (Exception.ctor e) ∧
          e.isConstructionError = true ∧ e.expected = 4 ∧ e.initParamsLength = some 2) ∧
        (∀ ptr, BuildGASModelWPar (specCtors List.length List.length exampleGen exampleBeta)
          "BetaTEGARCH" [1, 2] ≠ Except.ok ptr) ∧
        ∀ ptr, BuildGASModelWParWPrior
          (specCtors List.length List.length exampleGen exampleBeta)
          "BetaTEGARCH" [1, 2] [0] ≠ Except.ok ptr) ∧
      ((∃ e, BuildGASModelWParWPrior
            (specCtors List.length List.length exampleGen exampleBeta)
            "BetaTEGARCH" [1, 2] [0] = Except.error (Exception.ctor e) ∧
          e.isShapeMismatchError = true ∧ e.expected = 4 ∧ e.slotCount = some 1) ∧
        ∀ ptr, BuildGASModelWParWPrior
          (specCtors List.length List.length exampleGen exampleBeta)
          "BetaTEGARCH" [1, 2] [0] ≠ Except.ok ptr) ∧
      BuildGASModelWParWPrior (specCtors List.length List.length exampleGen exampleBeta)
          "BetaTEGARCH" [1, 2] [0] =
        Except.error (Exception.ctor
          { expected := 4, initParamsLength := some 2, slotCount := some 1 }) ∧
      BuildGASModelWParWPrior (specCtors List.length List.length exampleGen exampleBeta)
          "BetaTEGARCH" [1, 2, 3, 4] [0, 0, 0, 0] =
        Except.ok (Ptr.obj (GASModel.BetaTEGARCH
          { params := [1, 2, 3, 4], priors := [0, 0, 0, 0] })) :=
  ⟨(mismatched_shapes_fail List.length List.length exampleGen exampleBeta
      "BetaTEGARCH" Variant.BetaTEGARCH (by decide) [1, 2] [0]).1 (by decide),
    (mismatched_shapes_fail List.length List.length exampleGen exampleBeta
      "BetaTEGARCH" Variant.BetaTEGARCH (by decide) [1, 2] [0]).2 (by decide),
    rfl, rfl⟩

/-! ## The decision depends on the name alone -/

/-- C8: each builder is the registry lookup of the name followed by the
construction shape of that builder, so the decision is a function of the
name alone.  For every name and any two choices of initParams and
priorStack the three builders agree on whether the name is rejected and,
seen through the constructors that record their call, on the variant
selected; a name that is rejected is rejected with the same outcome by all
three, whatever the other arguments are. -/
theorem dispatch_depends_on_name_only (c : Ctors NV PS E G B) (name : String)
    (p p' : NV) (s s' : PS) :
    (BuildGASModel c name =
        (match Variant.ofName name with
          | some v => construct0 c v
          | none => Except.error
              (Exception.stop "Specify an implemented model, see doc for available models.")) ∧
      BuildGASModelWPar c name p =
        (match Variant.ofName name with
          | some v => construct1 c v p
          | none => Except.error
              (Exception.stop "Specify an implemented model, see doc for available models.")) ∧
      BuildGASModelWParWPrior c name p s =
        (match Variant.ofName name with
          | some v => construct2 c v p s
          | none => Except.error
              (Exception.stop
                "Specify an implemented model, see doc for available models."))) ∧
      (rejected (BuildGASModel c name) = (Variant.ofName name).isNone ∧
        rejected (BuildGASModelWPar c name p) = (Variant.ofName name).isNone ∧
        rejected (BuildGASModelWPar c name p') = (Variant.ofName name).isNone ∧
        rejected (BuildGASModelWParWPrior c name p s) = (Variant.ofName name).isNone ∧
        rejected (BuildGASModelWParWPrior c name p' s') = (Variant.ofName name).isNone) ∧
      (variantOf (BuildGASModel (recordCtors NV PS) name) = Variant.ofName name ∧
        variantOf (BuildGASModelWPar (recordCtors NV PS) name p) = Variant.ofName name ∧
        variantOf (BuildGASModelWPar (recordCtors NV PS) name p') = Variant.ofName name ∧
        variantOf (BuildGASModelWParWPrior (recordCtors NV PS) name p s) =
          Variant.ofName name ∧
        variantOf (BuildGASModelWParWPrior (recordCtors NV PS) name p' s') =
          Variant.ofName name) ∧
      (rejected (BuildGASModel c name) = true →
        BuildGASModelWPar c name p = BuildGASModel c name ∧
        BuildGASModelWPar c name p' = BuildGASModel c name ∧
        BuildGASModelWParWPrior c name p s = BuildGASModel c name ∧
        BuildGASModelWParWPrior c name p' s' = BuildGASModel c name) := by
  by_cases hGen : name = "BetaGenTEGARCH"
  · subst hGen
    refine ⟨⟨rfl, rfl, rfl⟩, ⟨?_, ?_, ?_, ?_, ?_⟩, ⟨rfl, rfl, rfl, rfl, rfl⟩, ?_⟩
    · exact rejected_newObj c.BetaGenTEGARCH0 _
    · exact rejected_newObj (c.BetaGenTEGARCH1 p) _
    · exact rejected_newObj (c.BetaGenTEGARCH1 p') _
    · exact rejected_newObj (c.BetaGenTEGARCH2 p s) _
    · exact rejected_newObj (c.BetaGenTEGARCH2 p' s') _
    · intro h
      have h0 : rejected (BuildGASModel c "BetaGenTEGARCH") = false :=
        rejected_newObj c.BetaGenTEGARCH0 _
      rw [h0] at h
      cases h
  · by_cases hBeta : name = "BetaTEGARCH"
    · subst hBeta
      refine ⟨⟨rfl, rfl, rfl⟩, ⟨?_, ?_, ?_, ?_, ?_⟩, ⟨rfl, rfl, rfl, rfl, rfl⟩, ?_⟩
      · exact rejected_newObj c.BetaTEGARCH0 _
      · exact rejected_newObj (c.BetaTEGARCH1 p) _
      · exact rejected_newObj (c.BetaTEGARCH1 p') _
      · exact rejected_newObj (c.BetaTEGARCH2 p s) _
      · exact rejected_newObj (c.BetaTEGARCH2 p' s') _
      · intro h
        have h0 : rejected (BuildGASModel c "BetaTEGARCH") = false :=
          rejected_newObj c.BetaTEGARCH0 _
        rw [h0] at h
        cases h
    · rw [BuildGASModel_other c hGen hBeta, BuildGASModelWPar_other c hGen hBeta,
        BuildGASModelWPar_other c hGen hBeta, BuildGASModelWParWPrior_other c hGen hBeta,
        BuildGASModelWParWPrior_other c hGen hBeta,
        BuildGASModel_other (recordCtors NV PS) hGen hBeta,
        BuildGASModelWPar_other (recordCtors NV PS) hGen hBeta,
        BuildGASModelWPar_other (recordCtors NV PS) hGen hBeta,
        BuildGASModelWParWPrior_other (recordCtors NV PS) hGen hBeta,
        BuildGASModelWParWPrior_other (recordCtors NV PS) hGen hBeta,
        ofName_eq_none hGen hBeta]
      exact ⟨⟨rfl, rfl, rfl⟩, ⟨rfl, rfl, rfl, rfl, rfl⟩, ⟨rfl, rfl, rfl, rfl, rfl⟩,
        fun _ => ⟨rfl, rfl, rfl, rfl⟩⟩

/-- C8 at the unrecognized name "Unknown": it is rejected by the builder
without arguments, hence with the same outcome by the other two, for
initParams [1] and [2, 3] and for priorStack [] and [9]. -/
theorem dispatch_depends_on_name_only_witness :
    rejected (BuildGASModel (recordCtors (List Int) (List Nat)) "Unknown") = true ∧
      BuildGASModelWPar (recordCtors (List Int) (List Nat)) "Unknown" [1] =
        BuildGASModel (recordCtors (List Int) (List Nat)) "Unknown" ∧
      BuildGASModelWPar (recordCtors (List Int) (List Nat)) "Unknown" [2, 3] =
        BuildGASModel (recordCtors (List Int) (List Nat)) "Unknown" ∧
      BuildGASModelWParWPrior (recordCtors (List Int) (List Nat)) "Unknown" [1] [] =
        BuildGASModel (recordCtors (List Int) (List Nat)) "Unknown" ∧
      BuildGASModelWParWPrior (recordCtors (List Int) (List Nat)) "Unknown" [2, 3] [9] =
        BuildGASModel (recordCtors (List Int) (List Nat)) "Unknown" :=
  ⟨rfl, (dispatch_depends_on_name_only (recordCtors (List Int) (List Nat)) "Unknown"
    [1] [2, 3] [] [9]).2.2.2 rfl⟩

end Claims

end GASModelFactory
